import Mathlib

/-!
Verification of the Bitcoin ETL / time-series pipeline
(`bitcoin_utils.py`, `bitcoin_example.py`) against its specification.

The repository's transformation-and-forecasting core is shallowly embedded:
timestamps are naturals counting minutes, prices are rationals, pandas
frames are Lean lists, fallible steps return `Except`.  The numerical
output of the two external model-fitting libraries (Prophet's optimizer,
statsmodels' SARIMAX maximum-likelihood fit) is genuinely environment
dependent, so it enters the embedding as an explicit parameter (a point
forecast function together with a convergence flag); all structure that IS
determined by the code — future-frame construction, index continuation,
rolling windows, resampling, the decomposition length check, and the
orchestrator's control flow — is embedded directly from the source.
-/

/-- Error taxonomy of the specification (section 7): failures the pipeline
steps can report.  In the Python source these surface as raised exceptions
(`FileNotFoundError`, pandas parse errors, statsmodels `ValueError`, ...).
One failure mode of the source falls outside the spec's four-way taxonomy
and is carried separately: pandas' reindex error on tied timestamps
(`ValueError: cannot reindex on an axis with duplicate labels`), raised by
`asfreq` in `run_seasonal_decompose`. -/
inductive Err where
  | missingArtifact
  | malformedInput
  | insufficientData
  | modelFitError
  | duplicateLabels
deriving DecidableEq

/-- Data model: one raw sample as appended by the ingestion collaborator
(`fetch_bitcoin_price` in bitcoin_utils.py).  Timestamps count minutes. -/
structure Sample where
  timestamp : ℕ
  price_usd : ℚ
  market_cap_usd : ℚ
deriving DecidableEq

/-! ## RollingMetricsComputer (`transform_bitcoin_data`, bitcoin_utils.py)

The in-memory metric computation of `transform_bitcoin_data`
(lines 61–72): percentage change, 7-period rolling mean, 15-period rolling
sample standard deviation, each with pandas semantics. -/

/-- Embedding of `df['price_usd'].pct_change().fillna(0) * 100`.
pandas computes `v[i] / v[i-1] - 1`; the leading NaN is filled with 0. -/
def pctChange100 (ps : List ℚ) : List ℚ :=
  (List.range ps.length).map fun i =>
    if i = 0 then 0 else (ps.getD i 0 / ps.getD (i - 1) 0 - 1) * 100

/-- Trailing window of width `w` ending at (and including) position `i`:
the slice pandas `rolling(window=w)` aggregates at row `i`. -/
def windowEnd (ps : List ℚ) (i w : ℕ) : List ℚ :=
  (ps.take (i + 1)).drop (i + 1 - w)

/-- Embedding of `series.rolling(window=w).mean()`: `none` (NaN) until `w`
observations have accumulated, then the mean of the trailing window. -/
def rollingMean (w : ℕ) (ps : List ℚ) : List (Option ℚ) :=
  (List.range ps.length).map fun i =>
    if i + 1 < w then none else some ((windowEnd ps i w).sum / (w : ℚ))

/-- Sample variance as pandas computes it inside `rolling(...).std()`
(ddof = 1, computational form `(Σx² - (Σx)²/n) / (n-1)`). -/
def sampleVarP (l : List ℚ) : ℚ :=
  ((l.map fun x => x ^ 2).sum - l.sum ^ 2 / (l.length : ℚ)) / ((l.length : ℚ) - 1)

/-- Embedding of `series.rolling(window=w).std()`: `none` (NaN) until `w`
observations have accumulated, then the square root of the trailing-window
sample variance. -/
noncomputable def rollingStd (w : ℕ) (ps : List ℚ) : List (Option ℝ) :=
  (List.range ps.length).map fun i =>
    if i + 1 < w then none else some (Real.sqrt ((sampleVarP (windowEnd ps i w) : ℚ) : ℝ))

/-- Derived columns produced by `transform_bitcoin_data`:
`price_change_pct`, `moving_avg_price` (window 7), `volatility_15m`
(window 15). -/
structure DerivedFrame where
  pct : List ℚ
  ma : List (Option ℚ)
  vol : List (Option ℝ)

/-- Derived-metric block of `transform_bitcoin_data` (lines 64–72) on the
sorted price column.  None of the pandas operations involved
(`pct_change`, `fillna`, `rolling().mean()`, `rolling().std()`) raises on a
numeric column — empty and partial inputs included — so the computation
always succeeds; the `Except` carrier records that there is no failure
path. -/
noncomputable def computeDerived (ps : List ℚ) : Except Err DerivedFrame :=
  .ok ⟨pctChange100 ps, rollingMean 7 ps, rollingStd 15 ps⟩

/-! Spec-side definitions (section 4.1 of the spec), for comparison with
the pandas-side embedding above. -/

/-- Spec's trailing window: the entries `ps[i-(w-1) .. i]` listed by
explicit index arithmetic. -/
def specWindow (ps : List ℚ) (i w : ℕ) : List ℚ :=
  (List.range w).map fun j => ps.getD (i + 1 - w + j) 0

/-- Spec's sample variance: `Σ (x - mean)² / (n - 1)` with `mean = Σx / n`. -/
def specSampleVar (l : List ℚ) : ℚ :=
  (l.map fun x => (x - l.sum / (l.length : ℚ)) ^ 2).sum / ((l.length : ℚ) - 1)

/-- Spec's sample standard deviation: square root of `specSampleVar`. -/
noncomputable def specSampleStd (l : List ℚ) : ℝ :=
  Real.sqrt ((specSampleVar l : ℚ) : ℝ)

/-! ## SeriesLoader / full `transform_bitcoin_data` (bitcoin_utils.py)

The surrounding ETL step: read the raw CSV, parse timestamps, sort,
derive, write the transformed CSV.  The whole body sits in a
`try/except` that prints and returns on any failure. -/

/-- Raw CSV row before parsing.  `none` in `timestamp` models an
unparseable timestamp string (`pd.to_datetime` raises on it); `none` in
`price_usd` models a non-numeric price cell (`pct_change` on the resulting
object column raises). -/
structure RawRow where
  timestamp : Option ℕ
  price_usd : Option ℚ
  market_cap_usd : Option ℚ
deriving DecidableEq

/-- Raw CSV file: which of the required columns are present, plus rows. -/
structure CsvFile where
  hasTimestampCol : Bool
  hasPriceCol : Bool
  rows : List RawRow
deriving DecidableEq

/-- Transformed artifact written by `transform_bitcoin_data`: the sorted
samples together with the three derived columns. -/
structure DerivedCsv where
  samples : List Sample
  derived : DerivedFrame

/-- State visible to `transform_bitcoin_data`: the raw input artifact
(`bitcoin_price_data.csv`, `none` when the file is absent) and the
transformed output artifact (`bitcoin_price_transformed.csv`). -/
structure TransformState where
  input : Option CsvFile
  output : Option DerivedCsv

/-- Embedding of `pd.read_csv(input_file)`: a missing input file raises
(`MissingArtifact` in the spec's taxonomy). -/
def readInput (st : TransformState) : Except Err CsvFile :=
  match st.input with
  | none => .error .missingArtifact
  | some c => .ok c

/-- Parsing steps of `transform_bitcoin_data`: column lookup
(`df['timestamp']`, `df['price_usd']` raise KeyError when absent),
`pd.to_datetime` (raises on an unparseable timestamp), and the numeric
price requirement (`pct_change` raises on a non-numeric column). -/
def parseRows (c : CsvFile) : Except Err (List Sample) :=
  if c.hasTimestampCol = false then .error .malformedInput
  else if c.rows.any fun r => r.timestamp.isNone then .error .malformedInput
  else if c.hasPriceCol = false then .error .malformedInput
  else if c.rows.any fun r => r.price_usd.isNone then .error .malformedInput
  else .ok (c.rows.map fun r =>
    ⟨r.timestamp.getD 0, r.price_usd.getD 0, r.market_cap_usd.getD 0⟩)

/-- Load-and-parse prefix of `transform_bitcoin_data` (everything that can
raise before the derived columns are computed). -/
def loadFrame (st : TransformState) : Except Err (List Sample) :=
  readInput st >>= parseRows

/-- Insertion step of the timestamp sort. -/
def insertByTs (s : Sample) : List Sample → List Sample
  | [] => [s]
  | a :: rest =>
      if s.timestamp < a.timestamp then s :: a :: rest else a :: insertByTs s rest

/-- Embedding of `df.sort_values(by='timestamp')`: arranges rows
non-decreasing by timestamp.  The source uses pandas' default sort kind
(quicksort), whose arrangement of rows with equal timestamps is
implementation-defined; this embedding realises one nondecreasing
arrangement and no theorem below relies on its tie order. -/
def sortByTimestamp : List Sample → List Sample
  | [] => []
  | a :: rest => insertByTs a (sortByTimestamp rest)

/-- Embedding of `transform_bitcoin_data` (bitcoin_utils.py, lines 51–78):
read, parse, sort, derive, write — all inside a `try` whose `except`
prints the error and returns, leaving the previous output artifact
untouched. -/
noncomputable def transform_bitcoin_data (st : TransformState) : TransformState :=
  match loadFrame st with
  | .error _ => st
  | .ok df =>
      let sorted := sortByTimestamp df
      match computeDerived (sorted.map Sample.price_usd) with
      | .error _ => st
      | .ok d => { st with output := some ⟨sorted, d⟩ }

/-! ## TrendSeasonalityForecaster (`run_prophet_forecast`, bitcoin_example.py) -/

/-- Maximum historical timestamp, as Prophet's
`make_future_dataframe` uses it (`self.history_dates.max()`). -/
def lastTs (df : List Sample) : ℕ :=
  (df.map Sample.timestamp).foldr max 0

/-- History part of Prophet's future frame: the distinct historical
timestamps in ascending order (Prophet stores
`history_dates = sorted unique ds` at fit time). -/
def histDs (df : List Sample) : List ℕ :=
  (df.map Sample.timestamp).toFinset.sort (· ≤ ·)

/-- Embedding of `model.make_future_dataframe(periods=periods, freq='T')`
(`include_history` defaults to true): the sorted unique history dates
followed by `periods` new dates at one-minute spacing immediately after
the maximum history date. -/
def futureDs (df : List Sample) (periods : ℕ) : List ℕ :=
  histDs df ++ (List.range periods).map fun k => lastTs df + (k + 1)

/-- Row of the Prophet forecast table as consumed downstream
(`forecast_prophet.csv`): timestamp, point forecast, and the two rolling
post-processing metrics recomputed over the forecast's own `yhat`. -/
structure ProphetRow where
  ds : ℕ
  yhat : ℚ
  moving_avg_price : Option ℚ
  volatility_15m : Option ℝ

/-- Forecast table `run_prophet_forecast` writes on success: one row per
future-frame date, with `yhat` from the fitted curve and the two rolling
metrics (`rolling(7).mean()`, `rolling(15).std()`) recomputed over the
forecast's own `yhat` column. -/
noncomputable def prophetTable (yh : ℕ → ℚ) (df : List Sample) (periods : ℕ) :
    List ProphetRow :=
  (List.range (futureDs df periods).length).map fun i =>
    { ds := (futureDs df periods).getD i 0
      yhat := ((futureDs df periods).map yh).getD i 0
      moving_avg_price := (rollingMean 7 ((futureDs df periods).map yh)).getD i none
      volatility_15m := (rollingStd 15 ((futureDs df periods).map yh)).getD i none }

/-- Embedding of `run_prophet_forecast` (bitcoin_example.py, lines 9–33).
Prophet's fit raises when the frame has fewer than 2 rows; convergence of
its optimizer is an environment fact, passed as `fitOk`, and the fitted
point-forecast curve as `yh`.  On success: build the future frame, predict
`yhat` everywhere, compute the rolling metrics over the forecast `yhat`
column, and write the table. -/
noncomputable def run_prophet_forecast (yh : ℕ → ℚ) (fitOk : Bool)
    (df : List Sample) (periods : ℕ) : Except Err (List ProphetRow) :=
  if df.length < 2 then .error .modelFitError
  else if fitOk = false then .error .modelFitError
  else .ok (prophetTable yh df periods)

/-! ## SeasonalAutoregressiveForecaster (`run_sarima_forecast`, bitcoin_example.py) -/

/-- Row of the SARIMA forecast table (`forecast_sarima.csv`).  The frame
fed to SARIMAX carries pandas' default integer RangeIndex, so the `ds`
column produced by `reset_index` holds integer row positions. -/
structure SarimaRow where
  ds : ℕ
  yhat_sarima : ℚ
deriving DecidableEq

/-- Embedding of `run_sarima_forecast` (bitcoin_example.py, lines 35–53).
The SARIMAX maximum-likelihood fit either converges (environment fact
`fitOk`, fitted mean-forecast curve `yh`) or raises.  `get_forecast(steps)`
continues the fitting frame's integer RangeIndex: its `predicted_mean`
is indexed `n, n+1, ..., n+steps-1` for an `n`-row history, and
`reset_index` turns that index into the `ds` column. -/
def run_sarima_forecast (yh : ℕ → ℚ) (fitOk : Bool)
    (df : List Sample) (steps : ℕ) : Except Err (List SarimaRow) :=
  if fitOk = false then .error .modelFitError
  else .ok ((List.range steps).map fun k =>
    { ds := df.length + k, yhat_sarima := yh (df.length + k) })

/-! ## Resampler + ClassicalDecomposer (`run_seasonal_decompose`, bitcoin_example.py) -/

/-- First timestamp of the frame (start of the `asfreq('T')` grid). -/
def firstTs (df : List Sample) : ℕ :=
  (df.head?.map Sample.timestamp).getD 0

/-- Final timestamp of the frame (end of the `asfreq('T')` grid). -/
def finalTs (df : List Sample) : ℕ :=
  (df.getLast?.map Sample.timestamp).getD 0

/-- Latest sample at or before minute `t` (the value `ffill` carries onto
grid point `t`); `none` when no sample has been observed yet. -/
def lastObs : List Sample → ℕ → Option Sample
  | [], _ => none
  | s :: rest, t =>
      match lastObs rest t with
      | some s' => some s'
      | none => if s.timestamp ≤ t then some s else none

/-- Grid the resampler produces when the reindex succeeds: one point per
minute from the first to the last observed timestamp, each grid point
carrying the latest value observed at or before it. -/
def resampleGrid (df : List Sample) : List (ℕ × ℚ) :=
  if df.isEmpty then []
  else (List.range (finalTs df + 1 - firstTs df)).map fun k =>
    (firstTs df + k, ((lastObs df (firstTs df + k)).map Sample.price_usd).getD 0)

/-- Embedding of
`df.set_index('timestamp')['price_usd'].asfreq('T').fillna(method='ffill')`:
pandas' `asfreq` reindexes by timestamp label and raises
`ValueError: cannot reindex on an axis with duplicate labels` whenever two
rows share a timestamp; on a duplicate-free index it yields the
minute grid with the last observed value carried forward. -/
def resample (df : List Sample) : Except Err (List (ℕ × ℚ)) :=
  if (df.map Sample.timestamp).Nodup then .ok (resampleGrid df)
  else .error .duplicateLabels

/-- Centered moving average with window length `period`, as statsmodels'
`seasonal_decompose` computes the trend for the even period used here
(convolution filter `[1/2, 1, ..., 1, 1/2] / period`, two-sided): defined
where a full window fits, NaN (`none`) at the edges. -/
def centeredMA (xs : List ℚ) (period : ℕ) : List (Option ℚ) :=
  (List.range xs.length).map fun i =>
    if period / 2 ≤ i ∧ i + period / 2 < xs.length then
      some ((xs.getD (i - period / 2) 0 / 2
        + ((List.range (period - 1)).map fun j =>
            xs.getD (i - period / 2 + 1 + j) 0).sum
        + xs.getD (i + period / 2) 0 / 2) / (period : ℚ))
    else none

/-- Observed minus trend where the trend is defined. -/
def detrended (xs : List ℚ) (period : ℕ) : List (Option ℚ) :=
  (List.range xs.length).map fun i =>
    ((centeredMA xs period).getD i none).map fun m => xs.getD i 0 - m

/-- Mean of the defined detrended values at phase `r` within the period
(statsmodels' `pd_nanmean(detrended[r::period])`). -/
def phaseAverage (d : List (Option ℚ)) (period r : ℕ) : ℚ :=
  let vals := ((d.enum.filter fun p => decide (p.1 % period = r)).map Prod.snd).reduceOption
  vals.sum / (vals.length : ℚ)

/-- Seasonal component: the phase averages, centred by subtracting their
mean, tiled across the series. -/
def seasonalOf (xs : List ℚ) (period : ℕ) : List ℚ :=
  let pa := (List.range period).map fun r => phaseAverage (detrended xs period) period r
  let m := pa.sum / (pa.length : ℚ)
  (List.range xs.length).map fun i => pa.getD (i % period) 0 - m

/-- Decomposition result: trend, seasonal and residual series aligned to
the resampled grid. -/
structure DecompResult where
  trend : List (Option ℚ)
  seasonal : List ℚ
  resid : List (Option ℚ)

/-- Embedding of statsmodels' `seasonal_decompose(xs, model='additive',
period=period)`: raises when fewer than two full cycles of data exist
(`x must have 2 complete cycles`), otherwise trend by centered moving
average, seasonal by centred phase averages, residual as the remainder. -/
def seasonal_decompose (xs : List ℚ) (period : ℕ) : Except Err DecompResult :=
  if xs.length < 2 * period then .error .insufficientData
  else
    .ok { trend := centeredMA xs period
          seasonal := seasonalOf xs period
          resid := (List.range xs.length).map fun i =>
            ((centeredMA xs period).getD i none).map fun m =>
              xs.getD i 0 - m - (seasonalOf xs period).getD i 0 }

/-- Diagnostic plot artifact (`seasonal_decompose.png`): the stacked
panels `result.plot()` renders — observed plus the three component panels
(trend, seasonal, residual). -/
structure DecompPlot where
  observedPanel : List ℚ
  trendPanel : List (Option ℚ)
  seasonalPanel : List ℚ
  residPanel : List (Option ℚ)

/-- Embedding of `run_seasonal_decompose` (bitcoin_example.py, lines
55–65): resample onto the minute grid with forward fill (which itself can
raise on tied timestamps), decompose, and render the plot artifact; a
resampling or decomposition failure propagates before `savefig`, so no
artifact is produced. -/
def run_seasonal_decompose (df : List Sample) (period : ℕ) : Except Err DecompPlot :=
  match resample df with
  | .error e => .error e
  | .ok grid =>
      match seasonal_decompose (grid.map Prod.snd) period with
      | .error e => .error e
      | .ok r => .ok ⟨grid.map Prod.snd, r.trend, r.seasonal, r.resid⟩

/-! ## PipelineOrchestrator (`main`, bitcoin_example.py) -/

/-- Environment facts the orchestrator cannot control: whether each
external optimizer converges on the given data, and the point-forecast
curves the fitted models produce. -/
structure Env where
  prophetFitOk : Bool
  prophetYhat : ℕ → ℚ
  sarimaFitOk : Bool
  sarimaYhat : ℕ → ℚ

/-- Output artifacts of one pipeline run: `forecast_prophet.csv`,
`forecast_sarima.csv`, `seasonal_decompose.png`; `none` when the run
ended before the corresponding write. -/
structure OutFiles where
  forecast_prophet : Option (List ProphetRow)
  forecast_sarima : Option (List SarimaRow)
  seasonal_png : Option DecompPlot

/-- Embedding of `main` (bitcoin_example.py, lines 67–79): load the
transformed history (`none` models a missing file, which raises), then run
the three forecasting steps strictly in sequence with no exception
handling, so a raise in any step ends the run; each step writes its
artifact just before returning. -/
noncomputable def main (env : Env) (input : Option (List Sample)) :
    OutFiles × Except Err Unit :=
  match input with
  | none => (⟨none, none, none⟩, .error .missingArtifact)
  | some df =>
      match run_prophet_forecast env.prophetYhat env.prophetFitOk df 60 with
      | .error e => (⟨none, none, none⟩, .error e)
      | .ok pt =>
          match run_sarima_forecast env.sarimaYhat env.sarimaFitOk df 60 with
          | .error e => (⟨some pt, none, none⟩, .error e)
          | .ok st =>
              match run_seasonal_decompose df 60 with
              | .error e => (⟨some pt, some st, none⟩, .error e)
              | .ok dp => (⟨some pt, some st, some dp⟩, .ok ())

/-! ## Concrete fixtures used by witnesses and counterexamples -/

/-- Series of two samples separated by a 3-minute gap. -/
def dfGap : List Sample := [⟨0, 10, 0⟩, ⟨3, 20, 0⟩]

/-- Series with two samples sharing the timestamp minute 0 (the ingestion
loop repeats CoinGecko's `last_updated_at`, so tied timestamps occur). -/
def dfDup : List Sample := [⟨0, 10, 0⟩, ⟨0, 11, 0⟩, ⟨3, 20, 0⟩]

/-- Series of 130 consecutive-minute samples with strictly rising price:
long enough for the seasonal decomposition (130 ≥ 2 × 60). -/
def dfLong : List Sample := (List.range 130).map fun k => ⟨k, (100 : ℚ) + k, 0⟩

/-- Series of two samples whose timestamps are large (minute 1000 and
1001), far above their row positions 0 and 1. -/
def dflate : List Sample := [⟨1000, 5, 0⟩, ⟨1001, 6, 0⟩]

/-- Environment in which the Prophet optimizer fails to converge while the
SARIMAX fit succeeds. -/
def envFailP : Env := ⟨false, fun _ => 0, true, fun _ => 0⟩

/-- Transform state whose raw input artifact is absent while a previous
output artifact exists. -/
def stMissing : TransformState := ⟨none, some ⟨[], ⟨[], [], []⟩⟩⟩

/-- Transform state whose raw input has one row with an unparseable
timestamp, and an existing previous output artifact. -/
def stBadRow : TransformState :=
  ⟨some ⟨true, true, [⟨none, some 5, some 1⟩]⟩, some ⟨[], ⟨[], [], []⟩⟩⟩

/-! ## Helper lemmas -/

/-- Entry `i` of a map over `List.range`. -/
theorem getD_map_range {α : Type} (f : ℕ → α) (n i : ℕ) (d : α) :
    ((List.range n).map f).getD i d = if i < n then f i else d := by
  rw [List.getD_eq_getElem?_getD]
  rcases lt_or_le i n with h | h
  · simp [List.getElem?_map, List.getElem?_range, h]
  · rw [List.getElem?_eq_none (by simpa using h)]
    simp [Nat.not_lt.mpr h]

/-- Reading every position of a list back with `getD` reproduces the list. -/
theorem map_getD_range_self {α : Type} (l : List α) (d : α) :
    (List.range l.length).map (fun i => l.getD i d) = l := by
  apply List.ext_getElem
  · simp
  · intro i h1 h2
    simp [List.getD_eq_getElem l d h2, List.getElem?_eq_getElem h2]

/-- Any member of a list is at most its `foldr max 0`. -/
theorem le_foldr_max (l : List ℕ) (x : ℕ) (hx : x ∈ l) : x ≤ l.foldr max 0 := by
  induction l with
  | nil => cases hx
  | cons a t ih =>
      rcases List.mem_cons.mp hx with rfl | h
      · exact le_max_left _ _
      · exact le_trans (ih h) (le_max_right _ _)

/-- Expanding `Σ (x - c)²` over a list. -/
theorem sum_sq_sub (l : List ℚ) (c : ℚ) :
    (l.map fun x => (x - c) ^ 2).sum =
      (l.map fun x => x ^ 2).sum - 2 * c * l.sum + (l.length : ℚ) * c ^ 2 := by
  induction l with
  | nil => simp
  | cons a t ih =>
      simp only [List.map_cons, List.sum_cons, ih, List.length_cons]
      push_cast
      ring

/-- pandas' computational sample variance agrees with the spec's
definitional form on any nonempty window. -/
theorem sampleVarP_eq_specSampleVar (l : List ℚ) (hne : l ≠ []) :
    sampleVarP l = specSampleVar l := by
  have hn : (l.length : ℚ) ≠ 0 :=
    Nat.cast_ne_zero.mpr (List.length_pos.mpr hne).ne'
  unfold sampleVarP specSampleVar
  congr 1
  rw [sum_sq_sub]
  field_simp
  ring

/-- Trailing slice rewritten to the spec's explicit index form, valid for
any in-range position with a full window. -/
theorem windowEnd_eq_specWindow (ps : List ℚ) (i w : ℕ)
    (hi : i < ps.length) (hw : w ≤ i + 1) :
    windowEnd ps i w = specWindow ps i w := by
  apply List.ext_getElem
  · simp [windowEnd, specWindow]
    omega
  · intro j h1 h2
    have hjw : j < w := by
      simpa [specWindow] using h2
    have hlen : i + 1 ≤ ps.length := hi
    have hidx : i + 1 - w + j < ps.length := by omega
    have hidx2 : i + 1 - w + j < i + 1 := by omega
    simp only [windowEnd, specWindow]
    rw [List.getElem_map]
    rw [List.getElem_range]
    rw [List.getElem_drop]
    rw [List.getElem_take]
    rw [List.getD_eq_getElem ps 0 hidx]

/-- The trailing window has exactly `w` entries once `w` rows accumulated. -/
theorem windowEnd_length (ps : List ℚ) (i w : ℕ)
    (hi : i < ps.length) (hw : w ≤ i + 1) :
    (windowEnd ps i w).length = w := by
  simp [windowEnd]
  omega

/-! ## Claim theorems -/

/-- C4: for every non-empty price series sorted ascending by timestamp
(prices positive, per the data-model invariant `price_usd > 0`), the
derived `price_change_pct` column has one entry per input row, its first
entry is 0 (explicit fill), and entry `i > 0` equals
`(price[i] - price[i-1]) / price[i-1] * 100`. -/
theorem C4_pct_change (ps : List ℚ) (hne : ps ≠ []) (hpos : ∀ x ∈ ps, 0 < x) :
    (pctChange100 ps).length = ps.length ∧
    (pctChange100 ps).getD 0 0 = 0 ∧
    ∀ i, 0 < i → i < ps.length →
      (pctChange100 ps).getD i 0 =
        (ps.getD i 0 - ps.getD (i - 1) 0) / ps.getD (i - 1) 0 * 100 := by
  refine ⟨by simp [pctChange100], ?_, ?_⟩
  · have h0 : 0 < ps.length := List.length_pos.mpr hne
    rw [pctChange100, getD_map_range]
    simp [h0]
  · intro i hi0 hilen
    rw [pctChange100, getD_map_range, if_pos hilen, if_neg (Nat.pos_iff_ne_zero.mp hi0)]
    have hmem : ps.getD (i - 1) 0 ∈ ps := by
      rw [List.getD_eq_getElem ps 0 (by omega)]
      exact List.getElem_mem _
    have hb : ps.getD (i - 1) 0 ≠ 0 := (hpos _ hmem).ne'
    have key : ps.getD i 0 / ps.getD (i - 1) 0 - 1
        = (ps.getD i 0 - ps.getD (i - 1) 0) / ps.getD (i - 1) 0 := by
      rw [sub_div, div_self hb]
    rw [key]

/-- Witness for C4 at the concrete series `[4, 5]`. -/
theorem C4_pct_change_witness :
    (pctChange100 [(4 : ℚ), 5]).length = 2 ∧
    (pctChange100 [(4 : ℚ), 5]).getD 1 0 = ((5 : ℚ) - 4) / 4 * 100 := by
  have h := C4_pct_change [(4 : ℚ), 5] (by decide) (by decide)
  refine ⟨h.1, ?_⟩
  have h2 := h.2.2 1 (by norm_num) (by norm_num)
  simpa using h2

/-- C5: `moving_avg_price[i]` is undefined (NaN) for `i < 6` and equals
the arithmetic mean of the trailing 7-point window `price[i-6..i]` for
`i ≥ 6`; `volatility_15m[i]` is undefined for `i < 14` and equals the
sample standard deviation of the trailing 15-point window `price[i-14..i]`
for `i ≥ 14`.  Both windows are trailing and inclusive of the current
point (the spec-side `specWindow` reads exactly the entries
`ps[i-(w-1)..i]`, so no look-ahead). -/
theorem C5_rolling_windows (ps : List ℚ) (i : ℕ) (hi : i < ps.length) :
    (i < 6 → (rollingMean 7 ps).getD i none = none) ∧
    (6 ≤ i → (rollingMean 7 ps).getD i none =
      some ((specWindow ps i 7).sum / ((specWindow ps i 7).length : ℚ))) ∧
    (i < 14 → (rollingStd 15 ps).getD i none = none) ∧
    (14 ≤ i → (rollingStd 15 ps).getD i none =
      some (specSampleStd (specWindow ps i 15))) := by
  refine ⟨?_, ?_, ?_, ?_⟩
  · intro h6
    rw [rollingMean, getD_map_range, if_pos hi, if_pos (by omega)]
  · intro h6
    rw [rollingMean, getD_map_range, if_pos hi, if_neg (by omega)]
    rw [windowEnd_eq_specWindow ps i 7 hi (by omega)]
    have hlen : ((specWindow ps i 7).length : ℚ) = 7 := by simp [specWindow]
    rw [hlen]
    norm_num
  · intro h14
    rw [rollingStd, getD_map_range, if_pos hi, if_pos (by omega)]
  · intro h14
    rw [rollingStd, getD_map_range, if_pos hi, if_neg (by omega)]
    rw [windowEnd_eq_specWindow ps i 15 hi (by omega)]
    have hne : specWindow ps i 15 ≠ [] := by
      have : (specWindow ps i 15).length = 15 := by simp [specWindow]
      intro hcon
      rw [hcon] at this
      simp at this
    rw [specSampleStd, sampleVarP_eq_specSampleVar _ hne]

/-- Witness for C5: on 15 identical prices the volatility at row 14 is
defined and equals 0, and the moving average at row 6 is the 7-point mean. -/
theorem C5_rolling_windows_witness :
    (rollingStd 15 (List.replicate 15 (5 : ℚ))).getD 14 none = some (0 : ℝ) ∧
    (rollingMean 7 (List.replicate 15 (5 : ℚ))).getD 6 none = some (5 : ℚ) := by
  have hrep : ∀ k : ℕ, k < 15 → (List.replicate 15 (5 : ℚ)).getD k 0 = 5 := by
    intro k hk
    rw [List.getD_eq_getElem _ _ (by simpa using hk), List.getElem_replicate]
  have hw15 : specWindow (List.replicate 15 (5 : ℚ)) 14 15 = List.replicate 15 5 := by
    apply List.ext_getElem
    · simp [specWindow]
    · intro j h1 h2
      have hj : j < 15 := by simpa [specWindow] using h1
      simp only [specWindow, List.getElem_map, List.getElem_range, List.getElem_replicate]
      exact hrep _ (by omega)
  have hw7 : specWindow (List.replicate 15 (5 : ℚ)) 6 7 = List.replicate 7 5 := by
    apply List.ext_getElem
    · simp [specWindow]
    · intro j h1 h2
      have hj : j < 7 := by simpa [specWindow] using h1
      simp only [specWindow, List.getElem_map, List.getElem_range, List.getElem_replicate]
      exact hrep _ (by omega)
  constructor
  · have h := (C5_rolling_windows (List.replicate 15 (5 : ℚ)) 14 (by simp)).2.2.2 (by norm_num)
    rw [h, hw15]
    have hv : specSampleVar (List.replicate 15 (5 : ℚ)) = 0 := by
      simp [specSampleVar, List.map_replicate, List.sum_replicate]
      norm_num
    rw [specSampleStd, hv]
    norm_num
  · have h := (C5_rolling_windows (List.replicate 15 (5 : ℚ)) 6 (by simp)).2.1 (by norm_num)
    rw [h, hw7]
    norm_num [List.sum_replicate]

/-- C6 counterexample: the claim says the metric computation fails with
`InsufficientData` if and only if the input series is empty, but on the
empty series nothing raises: the derived computation returns an empty
frame, and the surrounding `transform_bitcoin_data` completes and writes
the (empty) output artifact. -/
theorem C6_counterexample :
    computeDerived [] = .ok ⟨[], [], []⟩ ∧
    (transform_bitcoin_data ⟨some ⟨true, true, []⟩, none⟩).output.isSome = true := by
  exact ⟨rfl, rfl⟩

/-- C6 (amended): the RollingMetricsComputer is a pure transform with no
side effects, and it never fails on any input series: the empty series
yields an empty derived frame rather than an error, and partial windows
yield undefined (`none`) values without raising. -/
theorem C6_never_fails (ps : List ℚ) :
    ∃ d : DerivedFrame, computeDerived ps = .ok d ∧
      d.pct.length = ps.length ∧ d.ma.length = ps.length ∧ d.vol.length = ps.length ∧
      (∀ i, i < 6 → d.ma.getD i none = none) ∧
      (∀ i, i < 14 → d.vol.getD i none = none) := by
  refine ⟨⟨pctChange100 ps, rollingMean 7 ps, rollingStd 15 ps⟩, rfl,
    by simp [pctChange100], by simp [rollingMean], by simp [rollingStd], ?_, ?_⟩
  · intro i h
    rw [rollingMean, getD_map_range]
    by_cases hc : i < ps.length
    · rw [if_pos hc, if_pos (by omega)]
    · rw [if_neg hc]
  · intro i h
    rw [rollingStd, getD_map_range]
    by_cases hc : i < ps.length
    · rw [if_pos hc, if_pos (by omega)]
    · rw [if_neg hc]

/-- Witness for C6 (amended) at the concrete series `[1, 2, 3]`. -/
theorem C6_never_fails_witness :
    (computeDerived [(1 : ℚ), 2, 3]).isOk = true := by
  obtain ⟨d, hd, -, -, -, -, -⟩ := C6_never_fails [(1 : ℚ), 2, 3]
  rw [hd]
  rfl

/-- Every date in the history part of the future frame is at most the
maximum historical timestamp. -/
theorem histDs_le_lastTs (df : List Sample) (t : ℕ) (ht : t ∈ histDs df) :
    t ≤ lastTs df := by
  have hmem : t ∈ df.map Sample.timestamp :=
    List.mem_toFinset.mp ((Finset.mem_sort (α := ℕ) (· ≤ ·)).mp ht)
  exact le_foldr_max _ _ hmem

/-- The ds column of the Prophet table is exactly the future frame. -/
theorem prophetTable_map_ds (yh : ℕ → ℚ) (df : List Sample) (periods : ℕ) :
    (prophetTable yh df periods).map ProphetRow.ds = futureDs df periods := by
  rw [prophetTable, List.map_map]
  exact map_getD_range_self (futureDs df periods) 0

/-- Filtering the future frame to dates strictly beyond the last
historical timestamp leaves exactly the `periods` appended dates. -/
theorem filter_futureDs (df : List Sample) (periods : ℕ) :
    (futureDs df periods).filter (fun t => lastTs df < t) =
      (List.range periods).map fun k => lastTs df + (k + 1) := by
  rw [futureDs, List.filter_append]
  have h1 : (histDs df).filter (fun t => lastTs df < t) = [] := by
    rw [List.filter_eq_nil_iff]
    intro t ht
    simpa using Nat.not_lt.mpr (histDs_le_lastTs df t ht)
  have h2 : ((List.range periods).map fun k => lastTs df + (k + 1)).filter
      (fun t => lastTs df < t) =
      (List.range periods).map fun k => lastTs df + (k + 1) := by
    rw [List.filter_eq_self]
    intro t ht
    obtain ⟨k, hk, rfl⟩ := List.mem_map.mp ht
    simp
  rw [h1, h2, List.nil_append]

/-- C2: on every valid fit (at least two rows, optimizer converged), the
trend/seasonality forecast table — whose rows carry the columns `ds`,
`yhat`, `moving_avg_price`, `volatility_15m` — has one row per future
date, and the rows strictly beyond the last historical timestamp are
exactly `periods` many, strictly increasing at the one-minute cadence
(timestamps `last+1, last+2, ..., last+periods`). -/
theorem C2_prophet_horizon (yh : ℕ → ℚ) (df : List Sample) (periods : ℕ)
    (h2 : 2 ≤ df.length) :
    ∃ T, run_prophet_forecast yh true df periods = .ok T ∧
      T.length = (histDs df).length + periods ∧
      (T.map ProphetRow.ds).filter (fun t => lastTs df < t) =
        (List.range periods).map fun k => lastTs df + (k + 1) := by
  refine ⟨prophetTable yh df periods, ?_, ?_, ?_⟩
  · rw [run_prophet_forecast, if_neg (by omega), if_neg (by simp)]
  · rw [prophetTable]
    simp [futureDs]
  · rw [prophetTable_map_ds]
    exact filter_futureDs df periods

/-- Witness for C2 at a concrete two-sample history with `periods = 10`. -/
theorem C2_prophet_horizon_witness :
    (2 ≤ dfGap.length) ∧
    ((run_prophet_forecast (fun _ => (0 : ℚ)) true dfGap 10).toOption.map
        (fun T => (T.map ProphetRow.ds).filter (fun t => lastTs dfGap < t))) =
      some ((List.range 10).map fun k => lastTs dfGap + (k + 1)) := by
  refine ⟨by simp [dfGap], ?_⟩
  obtain ⟨T, hT, hlen, hfil⟩ :=
    C2_prophet_horizon (fun _ => (0 : ℚ)) dfGap 10 (by simp [dfGap])
  rw [hT]
  simp only [Except.toOption, Option.map_some]
  exact congrArg some hfil

/-- C3 counterexample: with a two-row history at minutes 1000 and 1001,
the seasonal-autoregressive table's `ds` column is `[2, 3, 4, 5, 6]` —
the continuation of the frame's integer row index — so not a single row's
`ds` lies strictly after the last historical timestamp 1001, refuting the
claim that all of them do. -/
theorem C3_counterexample :
    (run_sarima_forecast (fun _ => (0 : ℚ)) true dflate 5).toOption.map
        (List.map SarimaRow.ds) = some [2, 3, 4, 5, 6] ∧
    lastTs dflate = 1001 ∧
    (run_sarima_forecast (fun _ => (0 : ℚ)) true dflate 5).toOption.map
        (fun T => T.all fun r => decide (lastTs dflate < r.ds)) = some false := by
  exact ⟨rfl, rfl, rfl⟩

/-- C3 (amended): on every successful fit the seasonal-autoregressive
forecaster returns a table with columns `ds` and `yhat_sarima` holding
exactly `steps` rows with strictly increasing `ds`; the `ds` values are
the integer row positions `n, n+1, ..., n+steps-1` continuing the
fitting frame's RangeIndex (so they immediately follow the last
historical row index, not the last historical timestamp). -/
theorem C3_sarima_index (yh : ℕ → ℚ) (df : List Sample) (steps : ℕ) :
    ∃ T, run_sarima_forecast yh true df steps = .ok T ∧
      T.length = steps ∧
      T.map SarimaRow.ds = (List.range steps).map (fun k => df.length + k) ∧
      (T.map SarimaRow.ds).Pairwise (· < ·) := by
  refine ⟨(List.range steps).map fun k =>
      { ds := df.length + k, yhat_sarima := yh (df.length + k) }, ?_, by simp, ?_, ?_⟩
  · rw [run_sarima_forecast, if_neg (by simp)]
  · rw [List.map_map]
    rfl
  · rw [List.map_map]
    refine List.Pairwise.map _ ?_ (List.pairwise_lt_range steps)
    intro a b hab
    simpa using hab

/-- Latest-observation lookup returns `none` when every sample lies
strictly after `t`. -/
theorem lastObs_none_of_all_gt (df : List Sample) (t : ℕ)
    (h : ∀ s ∈ df, t < s.timestamp) : lastObs df t = none := by
  induction df with
  | nil => rfl
  | cons a rest ih =>
      rw [lastObs, ih (fun s hs => h s (List.mem_cons_of_mem a hs))]
      rw [if_neg (Nat.not_le.mpr (h a (List.mem_cons_self a rest)))]

/-- Conversely, a `none` lookup means every sample lies strictly after `t`. -/
theorem all_gt_of_lastObs_none (df : List Sample) (t : ℕ)
    (h : lastObs df t = none) : ∀ s ∈ df, t < s.timestamp := by
  induction df with
  | nil => intro s hs; cases hs
  | cons a rest ih =>
      intro s hs
      rw [lastObs] at h
      cases hro : lastObs rest t with
      | some s' => rw [hro] at h; cases h
      | none =>
          rw [hro] at h
          by_cases ha : a.timestamp ≤ t
          · rw [if_pos ha] at h; cases h
          · rcases List.mem_cons.mp hs with rfl | hs'
            · exact Nat.not_le.mp ha
            · exact ih hro s hs'

/-- A successful latest-observation lookup returns a member at or
before `t`. -/
theorem lastObs_mem_le (df : List Sample) (t : ℕ) (s : Sample)
    (h : lastObs df t = some s) : s ∈ df ∧ s.timestamp ≤ t := by
  induction df with
  | nil => cases h
  | cons a rest ih =>
      rw [lastObs] at h
      cases hro : lastObs rest t with
      | some s' =>
          rw [hro] at h
          cases h
          exact ⟨List.mem_cons_of_mem a (ih hro).1, (ih hro).2⟩
      | none =>
          rw [hro] at h
          by_cases ha : a.timestamp ≤ t
          · rw [if_pos ha] at h
            cases h
            exact ⟨List.mem_cons_self _ rest, ha⟩
          · rw [if_neg ha] at h
            cases h

/-- On a strictly increasing series with some sample at or before `t`,
the latest-observation lookup returns the most recent such sample. -/
theorem lastObs_spec (df : List Sample) (t : ℕ) :
    df.Pairwise (fun a b => a.timestamp < b.timestamp) →
    ∀ s0 ∈ df, s0.timestamp ≤ t →
    ∃ s, lastObs df t = some s ∧ s ∈ df ∧ s.timestamp ≤ t ∧
      ∀ s' ∈ df, s'.timestamp ≤ t → s'.timestamp ≤ s.timestamp := by
  induction df with
  | nil =>
      intro _ s0 hs0 _
      cases hs0
  | cons a rest ih =>
      intro hsort s0 hs0 hs0t
      have ha : ∀ s' ∈ rest, a.timestamp < s'.timestamp :=
        fun s' hs' => (List.pairwise_cons.mp hsort).1 s' hs'
      have hrest : rest.Pairwise (fun x y => x.timestamp < y.timestamp) :=
        (List.pairwise_cons.mp hsort).2
      cases hro : lastObs rest t with
      | some sm =>
          have hm := lastObs_mem_le rest t sm hro
          obtain ⟨s, hs_eq, hs_mem, hs_le, hs_max⟩ := ih hrest sm hm.1 hm.2
          rw [hro] at hs_eq
          cases hs_eq
          refine ⟨sm, ?_, List.mem_cons_of_mem a hs_mem, hs_le, ?_⟩
          · rw [lastObs, hro]
          · intro s' hs' hs't
            rcases List.mem_cons.mp hs' with rfl | hmem
            · exact le_of_lt (ha sm hs_mem)
            · exact hs_max s' hmem hs't
      | none =>
          have hgt := all_gt_of_lastObs_none rest t hro
          have hs0a : s0 = a := by
            rcases List.mem_cons.mp hs0 with rfl | hmem
            · rfl
            · exact absurd hs0t (Nat.not_le.mpr (hgt s0 hmem))
          subst hs0a
          refine ⟨s0, ?_, List.mem_cons_self s0 rest, hs0t, ?_⟩
          · rw [lastObs, hro, if_pos hs0t]
          · intro s' hs' hs't
            rcases List.mem_cons.mp hs' with rfl | hmem
            · exact le_refl _
            · exact absurd hs't (Nat.not_le.mpr (hgt s' hmem))

/-- C7 counterexample: on a series with two samples sharing the
timestamp minute 0, the resampler does not produce a minute grid at all —
pandas' `asfreq` raises `cannot reindex on an axis with duplicate labels`
— refuting the claim that for every input series one point per minute is
produced.  Tied timestamps are allowed by the spec's Series model and
arise in practice from the 60-second polling of `last_updated_at`. -/
theorem C7_counterexample :
    dfDup.map Sample.timestamp = [0, 0, 3] ∧
    resample dfDup = .error .duplicateLabels := by
  exact ⟨rfl, rfl⟩

/-- C7 (amended): on every non-empty series with distinct (strictly
increasing) timestamps, the resampler succeeds and produces one point per
minute spanning the observed range (grid `firstTs, ..., finalTs`, so no
extrapolation before the first sample), each grid point carrying the value
of the most recent sample at or before it (last-observed-value-hold, no
interpolation); on a series with tied timestamps the reindex raises and no
grid is produced. -/
theorem C7_resample_grid (df : List Sample) (hne : df ≠ []) :
    (df.Pairwise (fun a b => a.timestamp < b.timestamp) →
      resample df = .ok (resampleGrid df) ∧
      (resampleGrid df).map Prod.fst =
        (List.range (finalTs df + 1 - firstTs df)).map (fun k => firstTs df + k) ∧
      ∀ p ∈ resampleGrid df, ∃ s ∈ df, s.timestamp ≤ p.1 ∧ p.2 = s.price_usd ∧
        ∀ s' ∈ df, s'.timestamp ≤ p.1 → s'.timestamp ≤ s.timestamp) ∧
    (¬ (df.map Sample.timestamp).Nodup →
      resample df = .error .duplicateLabels) := by
  have hemp : df.isEmpty = false := by
    cases df with
    | nil => exact absurd rfl hne
    | cons a rest => rfl
  constructor
  · intro hsort
    have hdup : (df.map Sample.timestamp).Nodup :=
      List.Pairwise.map Sample.timestamp (fun a b hab => Nat.ne_of_lt hab) hsort
    refine ⟨by rw [resample, if_pos hdup], ?_, ?_⟩
    · rw [resampleGrid, if_neg (by simp [hemp]), List.map_map]
      rfl
    · intro p hp
      rw [resampleGrid, if_neg (by simp [hemp])] at hp
      obtain ⟨k, hk, rfl⟩ := List.mem_map.mp hp
      obtain ⟨a, rest, rfl⟩ : ∃ a rest, df = a :: rest := by
        cases df with
        | nil => exact absurd rfl hne
        | cons a rest => exact ⟨a, rest, rfl⟩
      have hheadle : a.timestamp ≤ firstTs (a :: rest) + k := by
        have : a.timestamp = firstTs (a :: rest) := rfl
        omega
      obtain ⟨s, hs_eq, hs_mem, hs_le, hs_max⟩ :=
        lastObs_spec (a :: rest) (firstTs (a :: rest) + k) hsort a
          (List.mem_cons_self a rest) hheadle
      refine ⟨s, hs_mem, hs_le, ?_, hs_max⟩
      show ((lastObs (a :: rest) (firstTs (a :: rest) + k)).map Sample.price_usd).getD 0
        = s.price_usd
      rw [hs_eq]
      rfl
  · intro hdup
    rw [resample, if_neg hdup]

/-- Witness for C7 (amended) at the 3-minute-gap series — the resampler
succeeds and the grid holds exactly 2 synthetic points (minutes 1 and 2),
each carrying the earlier sample's value 10 forward, not interpolated
values — and at the tied-timestamp series, where it raises instead. -/
theorem C7_resample_grid_witness :
    resample dfGap = .ok [(0, 10), (1, 10), (2, 10), (3, 20)] ∧
    (resampleGrid dfGap).map Prod.fst =
      (List.range (finalTs dfGap + 1 - firstTs dfGap)).map (fun k => firstTs dfGap + k) ∧
    resample dfDup = .error .duplicateLabels := by
  have h := (C7_resample_grid dfGap (by simp [dfGap])).1
    (by simp [dfGap, List.pairwise_cons])
  have h2 := (C7_resample_grid dfDup (by simp [dfDup])).2 (by decide)
  refine ⟨?_, h.2.1, h2⟩
  rw [h.1]
  rfl

/-- C8: for every successfully resampled series (duplicate-free timestamp
index, so the `asfreq` reindex goes through), the classical decomposer
fails with `InsufficientData` whenever the resampled series has fewer
than `2 × period` points — producing no diagnostic plot artifact — and on
at least `2 × period` points the additive decomposition succeeds and
renders the plot artifact whose trend, seasonal and residual panels are
aligned 1:1 with the resampled grid. -/
theorem C8_decompose_cycles (df : List Sample) (period : ℕ)
    (hdup : (df.map Sample.timestamp).Nodup) :
    ((resampleGrid df).length < 2 * period →
      run_seasonal_decompose df period = .error .insufficientData) ∧
    (2 * period ≤ (resampleGrid df).length →
      ∃ plot, run_seasonal_decompose df period = .ok plot ∧
        plot.trendPanel.length = (resampleGrid df).length ∧
        plot.seasonalPanel.length = (resampleGrid df).length ∧
        plot.residPanel.length = (resampleGrid df).length) := by
  have hres : resample df = .ok (resampleGrid df) := by
    rw [resample, if_pos hdup]
  have hrun : run_seasonal_decompose df period =
      match seasonal_decompose ((resampleGrid df).map Prod.snd) period with
      | .error e => .error e
      | .ok r => .ok ⟨(resampleGrid df).map Prod.snd, r.trend, r.seasonal, r.resid⟩ := by
    rw [run_seasonal_decompose, hres]
  constructor
  · intro h
    have hxs : ((resampleGrid df).map Prod.snd).length < 2 * period := by simpa using h
    rw [hrun, seasonal_decompose, if_pos hxs]
  · intro h
    have hxs : ¬ ((resampleGrid df).map Prod.snd).length < 2 * period := by
      simpa using Nat.not_lt.mpr h
    refine ⟨⟨(resampleGrid df).map Prod.snd,
        centeredMA ((resampleGrid df).map Prod.snd) period,
        seasonalOf ((resampleGrid df).map Prod.snd) period,
        (List.range ((resampleGrid df).map Prod.snd).length).map fun i =>
          ((centeredMA ((resampleGrid df).map Prod.snd) period).getD i none).map fun m =>
            ((resampleGrid df).map Prod.snd).getD i 0 - m -
              (seasonalOf ((resampleGrid df).map Prod.snd) period).getD i 0⟩,
      ?_, ?_, ?_, ?_⟩
    · rw [hrun, seasonal_decompose, if_neg hxs]
    · simp [centeredMA]
    · simp [seasonalOf]
    · simp

set_option maxRecDepth 8000 in
/-- Witness for C8: a 4-point resampled series fails with
`InsufficientData` at period 60, while the 130-point series succeeds. -/
theorem C8_decompose_cycles_witness :
    ((resampleGrid dfGap).length < 2 * 60 ∧
      run_seasonal_decompose dfGap 60 = .error .insufficientData) ∧
    (2 * 60 ≤ (resampleGrid dfLong).length ∧
      (run_seasonal_decompose dfLong 60).isOk = true) := by
  have hdupLong : (dfLong.map Sample.timestamp).Nodup := by
    have hmap : dfLong.map Sample.timestamp = List.range 130 := by
      rw [dfLong, List.map_map]
      exact List.map_id _
    rw [hmap]
    exact List.nodup_range 130
  refine ⟨⟨by decide, (C8_decompose_cycles dfGap 60 (by decide)).1 (by decide)⟩, ?_, ?_⟩
  · decide
  · obtain ⟨plot, hp, -, -, -⟩ := (C8_decompose_cycles dfLong 60 hdupLong).2 (by decide)
    rw [hp]
    rfl

set_option maxRecDepth 4000 in
/-- C1 counterexample: on the 130-sample series, when the Prophet
optimizer fails to converge, the orchestrator aborts the whole run — the
SARIMA table and the decomposition plot are never produced — even though
both of those steps succeed on the very same series when reached,
refuting the claim that one forecaster's failure does not prevent the
other two from running and producing their artifacts. -/
theorem C1_counterexample :
    (main envFailP (some dfLong)).1.forecast_sarima = none ∧
    (main envFailP (some dfLong)).1.seasonal_png = none ∧
    (run_sarima_forecast envFailP.sarimaYhat envFailP.sarimaFitOk dfLong 60).isOk = true ∧
    (run_seasonal_decompose dfLong 60).isOk = true := by
  exact ⟨rfl, rfl, rfl, rfl⟩

/-- C1 (amended): the orchestrator runs the three forecasters strictly in
sequence with no error isolation: a failure (raised error) in a
forecasting step aborts the run and prevents every later step from
running and producing its artifact, while the artifacts written before
the failure are kept. -/
theorem C1_no_isolation (env : Env) (df : List Sample) :
    ((run_prophet_forecast env.prophetYhat env.prophetFitOk df 60).isOk = false →
      (main env (some df)).1.forecast_prophet = none ∧
      (main env (some df)).1.forecast_sarima = none ∧
      (main env (some df)).1.seasonal_png = none) ∧
    ((run_prophet_forecast env.prophetYhat env.prophetFitOk df 60).isOk = true →
      (run_sarima_forecast env.sarimaYhat env.sarimaFitOk df 60).isOk = false →
      (main env (some df)).1.forecast_prophet.isSome = true ∧
      (main env (some df)).1.forecast_sarima = none ∧
      (main env (some df)).1.seasonal_png = none) ∧
    ((run_prophet_forecast env.prophetYhat env.prophetFitOk df 60).isOk = true →
      (run_sarima_forecast env.sarimaYhat env.sarimaFitOk df 60).isOk = true →
      (run_seasonal_decompose df 60).isOk = false →
      (main env (some df)).1.forecast_prophet.isSome = true ∧
      (main env (some df)).1.forecast_sarima.isSome = true ∧
      (main env (some df)).1.seasonal_png = none) := by
  cases hp : run_prophet_forecast env.prophetYhat env.prophetFitOk df 60 with
  | error e =>
      refine ⟨fun _ => ?_, fun hok _ => Bool.noConfusion hok,
        fun hok _ _ => Bool.noConfusion hok⟩
      simp [main, hp]
  | ok pt =>
      cases hs : run_sarima_forecast env.sarimaYhat env.sarimaFitOk df 60 with
      | error e =>
          refine ⟨fun hok => Bool.noConfusion hok, fun _ _ => ?_,
            fun _ hok _ => Bool.noConfusion hok⟩
          simp [main, hp, hs]
      | ok st =>
          cases hd : run_seasonal_decompose df 60 with
          | error e =>
              refine ⟨fun hok => Bool.noConfusion hok,
                fun _ hok => Bool.noConfusion hok, fun _ _ _ => ?_⟩
              simp [main, hp, hs, hd]
          | ok dp =>
              exact ⟨fun hok => Bool.noConfusion hok,
                fun _ hok => Bool.noConfusion hok,
                fun _ _ hok => Bool.noConfusion hok⟩

set_option maxRecDepth 4000 in
/-- Witness for C1 (amended): concrete run in which the Prophet step
fails and no artifact at all is produced. -/
theorem C1_no_isolation_witness :
    (run_prophet_forecast envFailP.prophetYhat envFailP.prophetFitOk dfLong 60).isOk = false ∧
    (main envFailP (some dfLong)).1.forecast_prophet = none ∧
    (main envFailP (some dfLong)).1.forecast_sarima = none ∧
    (main envFailP (some dfLong)).1.seasonal_png = none := by
  have h := (C1_no_isolation envFailP dfLong).1 rfl
  exact ⟨rfl, h.1, h.2.1, h.2.2⟩

/-- C10: whenever any internal step of the transformation fails — the
input artifact is absent, a timestamp is unparseable, or a required
column is missing — `transform_bitcoin_data` returns normally (the
`except` swallows the error) and the state is unchanged: the output file
is not written and the previous output artifact, if any, is preserved. -/
theorem C10_failure_preserves_output (st : TransformState)
    (h : (loadFrame st).isOk = false) :
    transform_bitcoin_data st = st := by
  cases hl : loadFrame st with
  | error e =>
      rw [transform_bitcoin_data, hl]
  | ok df =>
      rw [hl] at h
      cases h

/-- Witness for C10: a missing input file and an unparseable timestamp
both leave the state (including the previous output artifact) unchanged. -/
theorem C10_failure_preserves_output_witness :
    (loadFrame stMissing).isOk = false ∧
    transform_bitcoin_data stMissing = stMissing ∧
    (loadFrame stBadRow).isOk = false ∧
    transform_bitcoin_data stBadRow = stBadRow := by
  exact ⟨rfl, C10_failure_preserves_output stMissing rfl, rfl,
    C10_failure_preserves_output stBadRow rfl⟩
